import Mathlib

/-!
Verification of the APOD image-cache subsystem (`apod_desktop.py`).

The cache index is the single SQLite table
`apod(id INTEGER PRIMARY KEY, title, explanation, file_path, sha256)`.
We embed the table as a list of rows in insertion (rowid) order: SQLite
assigns `max(rowid)+1` to an auto-assigned INTEGER PRIMARY KEY, scans in
rowid order when no ORDER BY is given, and this subsystem never deletes
rows.  `fetchone()` on a SELECT therefore yields the first matching row
of the list.  Network and filesystem collaborators (`apod_api`,
`requests`, `open`) are modelled by an explicit environment.
-/

/-- One row of the `apod` table. -/
structure ApodRecord where
  id : Nat
  title : String
  explanation : String
  file_path : String
  sha256 : String
  deriving Repr, DecidableEq

/-- Largest id present in the table, 0 when empty.  SQLite assigns
`max(rowid)+1` as the next auto rowid (no rows are ever deleted here). -/
def maxId (db : List ApodRecord) : Nat :=
  (db.map (fun r => r.id)).foldr max 0

/-- `add_apod_to_db`: INSERT INTO apod (title, explanation, file_path, sha256)
followed by `cursor.lastrowid`.  Returns the new id and the new table. -/
def add_apod_to_db (title explanation file_path sha256 : String)
    (db : List ApodRecord) : Nat × List ApodRecord :=
  let apod_id := maxId db + 1
  (apod_id, db ++ [⟨apod_id, title, explanation, file_path, sha256⟩])

/-- `get_apod_id_from_db`: SELECT id FROM apod WHERE sha256 = ?; `fetchone()`
gives the first row in rowid order; `result[0] if result else 0`. -/
def get_apod_id_from_db (image_sha256 : String) (db : List ApodRecord) : Nat :=
  match db.find? (fun r => r.sha256 == image_sha256) with
  | some r => r.id
  | none => 0

/-- The three columns returned by the two info SELECTs. -/
structure ApodInfoRow where
  title : String
  explanation : String
  file_path : String
  deriving Repr, DecidableEq

/-- `get_apod_info`: SELECT title, explanation, file_path FROM apod
WHERE id = ?; `fetchone()`; dict on hit, None on miss. -/
def get_apod_info (image_id : Nat) (db : List ApodRecord) : Option ApodInfoRow :=
  match db.find? (fun r => r.id == image_id) with
  | some r => some ⟨r.title, r.explanation, r.file_path⟩
  | none => none

/-- `get_apod_info_by_title`: SELECT title, explanation, file_path FROM apod
WHERE title = ?; `fetchone()`; dict on hit, None on miss.  No ORDER BY. -/
def get_apod_info_by_title (title : String) (db : List ApodRecord) :
    Option ApodInfoRow :=
  match db.find? (fun r => r.title == title) with
  | some r => some ⟨r.title, r.explanation, r.file_path⟩
  | none => none

/-- The character class of the re.sub in `determine_apod_file_path`:
backslash, slash, star, question mark, colon, double quote (Char 34),
less-than, greater-than, pipe. -/
def illegal_filename_chars : List Char :=
  ['\\', '/', '*', '?', ':', Char.ofNat 34, '<', '>', '|']

/-- re.sub of a character class with empty replacement: scan the text and
drop every character matched by the class. -/
def re_sub_remove (cls : List Char) : List Char → List Char
  | [] => []
  | c :: cs =>
    if cls.contains c then re_sub_remove cls cs else c :: re_sub_remove cls cs

/-- The cleaned file name of `determine_apod_file_path`:
re.sub removing the illegal characters from the title. -/
def clean_title (image_title : String) : String :=
  String.mk (re_sub_remove illegal_filename_chars image_title.toList)

/-- The extension part of `os.path.splitext`, applied to whatever string the
code passes it (the code passes the whole URL): the final slash-separated
segment is taken, its leading dots are skipped, and if a dot remains the
extension runs from the last dot to the end; otherwise it is empty. -/
def splitext_ext (p : String) : String :=
  let cs := p.toList
  let base := (cs.reverse.takeWhile (fun c => c != '/')).reverse
  let trimmed := base.dropWhile (fun c => c == '.')
  if trimmed.contains '.' then
    String.mk ('.' :: (trimmed.reverse.takeWhile (fun c => c != '.')).reverse)
  else ""

/-- `get_file_extension`: `os.path.splitext(image_url)` on the whole URL
string, defaulting to ".jpg" when the extension comes back empty. -/
def get_file_extension (image_url : String) : String :=
  let ext := splitext_ext image_url
  if ext = "" then ".jpg" else ext

/-- `determine_apod_file_path`: cache directory joined with the cleaned
title followed by the extension taken from the URL. -/
def determine_apod_file_path (image_cache_dir image_title image_url : String) :
    String :=
  image_cache_dir ++ "/" ++ clean_title image_title ++ get_file_extension image_url

/-- Modelled from the spec: the spec says the extension is extracted from
the URL's path component.  The path component ends where a query string
or fragment begins, so the query and fragment are stripped before
splitext is applied. -/
def url_path_component (u : String) : String :=
  String.mk (u.toList.takeWhile (fun c => c != '?' && c != '#'))

/-- Modelled from the spec: resolve_path with the extension taken from the
URL's path component (query and fragment stripped), defaulting to ".jpg". -/
def spec_determine_apod_file_path (image_cache_dir image_title image_url : String) :
    String :=
  let ext := splitext_ext (url_path_component image_url)
  image_cache_dir ++ "/" ++ clean_title image_title ++
    (if ext = "" then ".jpg" else ext)

/-- Well-formedness of the table: every row id is positive, as SQLite's
auto-assigned rowids always are. -/
def WfDb (db : List ApodRecord) : Prop := ∀ r ∈ db, 1 ≤ r.id

/-- The fields of the apod_api metadata dictionary used by the cache. -/
structure ApodInfo where
  title : String
  explanation : String
  deriving Repr, DecidableEq

/-- External collaborators of the cache pipeline: the apod_api metadata
fetch (keyed by the isoformat date string), the image-URL extraction from
the metadata, the HTTP image download, the SHA-256 hex digest, and
whether an open-and-write at a given path succeeds. -/
structure ApodEnv where
  api_get_apod_info : String → Option ApodInfo
  api_get_apod_image_url : ApodInfo → Option String
  http_download : String → Option (List Nat)
  sha256_hexdigest : List Nat → String
  write_succeeds : String → Bool

/-- Mutable world of the pipeline: the apod table and the files on disk. -/
structure FsDb where
  db : List ApodRecord
  files : List (String × List Nat)
  deriving Repr, DecidableEq

/-- `save_image_file`: open(file_path, 'wb').write(image_data); True on
success, False (state unchanged) when the write raises IOError. -/
def save_image_file (env : ApodEnv) (image_data : List Nat) (file_path : String)
    (st : FsDb) : Bool × FsDb :=
  if env.write_succeeds file_path then
    (true, ⟨st.db, st.files ++ [(file_path, image_data)]⟩)
  else (false, st)

/-- Lines 95-116 of add_apod_to_cache, after the date argument has been
normalised: fetch metadata, extract the image URL, download, hash, check
the index by hash (returning the hit immediately), otherwise resolve the
path, write the file, and insert.  The falsy checks `if not apod_info`,
`if not image_url`, `if not image_data` also fire on an empty string or
empty byte string, so those cases are modelled explicitly. -/
def apod_pipeline (env : ApodEnv) (image_cache_dir date_str : String)
    (st : FsDb) : Nat × FsDb :=
  match env.api_get_apod_info date_str with
  | none => (0, st)
  | some apod_info =>
    match env.api_get_apod_image_url apod_info with
    | none => (0, st)
    | some image_url =>
      if image_url = "" then (0, st)
      else
        match env.http_download image_url with
        | none => (0, st)
        | some image_data =>
          if image_data = [] then (0, st)
          else
            let image_sha256 := env.sha256_hexdigest image_data
            let apod_id := get_apod_id_from_db image_sha256 st.db
            if apod_id != 0 then (apod_id, st)
            else
              let file_path :=
                determine_apod_file_path image_cache_dir apod_info.title image_url
              match save_image_file env image_data file_path st with
              | (false, st1) => (0, st1)
              | (true, st1) =>
                let r := add_apod_to_db apod_info.title apod_info.explanation
                  file_path image_sha256 st1.db
                (r.1, ⟨r.2, st1.files⟩)

/-- A proleptic-Gregorian calendar date as datetime.date. -/
structure PyDate where
  year : Nat
  month : Nat
  day : Nat
  deriving Repr, DecidableEq

def is_leap_year (y : Nat) : Bool :=
  y % 4 == 0 && (y % 100 != 0 || y % 400 == 0)

def days_in_month (y m : Nat) : Nat :=
  if m == 2 then (if is_leap_year y then 29 else 28)
  else if m == 4 || m == 6 || m == 9 || m == 11 then 30
  else 31

def digit_val (c : Char) : Option Nat :=
  if c.isDigit then some (c.toNat - 48) else none

/-- date.fromisoformat: exactly the form YYYY-MM-DD denoting a valid
calendar date (year 0001-9999); None models the ValueError it raises. -/
def fromisoformat (s : String) : Option PyDate :=
  match s.toList with
  | [y1, y2, y3, y4, h1, m1, m2, h2, a1, a2] =>
    if h1 == '-' && h2 == '-' then
      match digit_val y1, digit_val y2, digit_val y3, digit_val y4,
            digit_val m1, digit_val m2, digit_val a1, digit_val a2 with
      | some b1, some b2, some b3, some b4, some c1, some c2, some e1, some e2 =>
        let y := ((b1 * 10 + b2) * 10 + b3) * 10 + b4
        let m := c1 * 10 + c2
        let dy := e1 * 10 + e2
        if 1 ≤ y ∧ 1 ≤ m ∧ m ≤ 12 ∧ 1 ≤ dy ∧ dy ≤ days_in_month y m then
          some ⟨y, m, dy⟩
        else none
      | _, _, _, _, _, _, _, _ => none
    else none
  | _ => none

def pad2 (n : Nat) : String :=
  if n < 10 then "0" ++ toString n else toString n

def pad4 (n : Nat) : String :=
  if n < 10 then "000" ++ toString n
  else if n < 100 then "00" ++ toString n
  else if n < 1000 then "0" ++ toString n
  else toString n

/-- date.isoformat: YYYY-MM-DD with zero padding. -/
def PyDate.isoformat (d : PyDate) : String :=
  pad4 d.year ++ "-" ++ pad2 d.month ++ "-" ++ pad2 d.day

/-- The argument of add_apod_to_cache: a datetime.date or a string. -/
inductive DateArg where
  | asDate (d : PyDate)
  | asStr (s : String)
  deriving Repr, DecidableEq

/-- `add_apod_to_cache` in full: a string argument is parsed with
date.fromisoformat, re-raising ValueError("Invalid date format") on
failure; then the pipeline runs on the isoformat of the date.  The
Except.error constructor models the uncaught ValueError. -/
def add_apod_to_cache (env : ApodEnv) (image_cache_dir : String)
    (arg : DateArg) (st : FsDb) : Except String (Nat × FsDb) :=
  match arg with
  | .asDate d => Except.ok (apod_pipeline env image_cache_dir d.isoformat st)
  | .asStr s =>
    match fromisoformat s with
    | none => Except.error "Invalid date format"
    | some d => Except.ok (apod_pipeline env image_cache_dir d.isoformat st)

/-- World of init_apod_cache: whether the images directory exists, and the
database file (None when image_cache.db is absent, otherwise its table). -/
structure CacheState where
  dir_exists : Bool
  database : Option (List ApodRecord)
  deriving Repr, DecidableEq

/-- `init_apod_cache`: os.makedirs when the directory is missing (an OSError
there propagates, modelled by Except.error); then, when the database file
is missing, CREATE TABLE inside try/except sqlite3.Error - a schema
creation failure is caught and printed and the function returns normally.
When the database file already exists nothing is touched. -/
def init_apod_cache (mkdir_fails schema_create_fails : Bool) (st : CacheState) :
    Except String CacheState :=
  if st.dir_exists = false ∧ mkdir_fails = true then Except.error "OSError"
  else
    match st.database with
    | none =>
      if schema_create_fails then Except.ok ⟨true, none⟩
      else Except.ok ⟨true, some []⟩
    | some rows => Except.ok ⟨true, some rows⟩

/-- The state after a fault-free init_apod_cache call. -/
def run_init (st : CacheState) : CacheState :=
  match init_apod_cache false false st with
  | Except.ok s => s
  | Except.error _ => st

/-- A concrete environment for exercising the pipeline: metadata, URL and
download always succeed, the digest is the printed byte list, writes
succeed. -/
def env_dedup : ApodEnv where
  api_get_apod_info := fun s =>
    if s = "2024-01-01" then some ⟨"A", "ea"⟩ else some ⟨"B", "eb"⟩
  api_get_apod_image_url := fun i => some ("https://x/" ++ i.title ++ ".jpg")
  http_download := fun _ => some [1, 2, 3]
  sha256_hexdigest := fun b => toString b
  write_succeeds := fun _ => true

/-- A concrete environment whose metadata fetch always fails. -/
def env_fail : ApodEnv where
  api_get_apod_info := fun _ => none
  api_get_apod_image_url := fun _ => none
  http_download := fun _ => none
  sha256_hexdigest := fun b => toString b
  write_succeeds := fun _ => true

-- Helper lemmas about the embedded table operations.

theorem re_sub_remove_eq_filter (cls : List Char) (l : List Char) :
    re_sub_remove cls l = l.filter (fun c => !(cls.contains c)) := by
  induction l with
  | nil => rfl
  | cons c cs ih =>
    simp only [re_sub_remove, List.filter_cons]
    cases h : cls.contains c with
    | true => simp [h, ih]
    | false => simp [h, ih]

theorem mem_id_le_maxId (db : List ApodRecord) (r : ApodRecord) (hr : r ∈ db) :
    r.id ≤ maxId db := by
  induction db with
  | nil => cases hr
  | cons x xs ih =>
    have hx : maxId (x :: xs) = max x.id (maxId xs) := by
      simp [maxId]
    rcases List.mem_cons.mp hr with h | h
    · rw [hx, h]; exact Nat.le_max_left _ _
    · exact Nat.le_trans (ih h) (hx ▸ Nat.le_max_right _ _)

theorem find?_append_of_none {α : Type} (p : α → Bool) (l1 l2 : List α)
    (h : l1.find? p = none) : (l1 ++ l2).find? p = l2.find? p := by
  induction l1 with
  | nil => rfl
  | cons x xs ih =>
    cases hx : p x with
    | true =>
      rw [List.find?_cons_of_pos _ hx] at h
      cases h
    | false =>
      rw [List.find?_cons_of_neg _ (by simp [hx])] at h
      rw [List.cons_append, List.find?_cons_of_neg _ (by simp [hx])]
      exact ih h

theorem lookup_zero_no_match (db : List ApodRecord) (d : String)
    (h : WfDb db) (hz : get_apod_id_from_db d db = 0) :
    db.find? (fun r => r.sha256 == d) = none := by
  cases hfind : db.find? (fun r => r.sha256 == d) with
  | none => rfl
  | some r =>
    have hmem : r ∈ db := List.mem_of_find?_eq_some hfind
    have hpos := h r hmem
    unfold get_apod_id_from_db at hz
    rw [hfind] at hz
    simp at hz
    omega

/-- Claim C3 counterexample: determine_apod_file_path applies splitext to
the whole URL string, not to its path component.  For the URL
https://x/pic.jpg?v=1.2 the code takes ".2" from the query string as the
extension, while extraction from the path component would give ".jpg". -/
theorem determine_apod_file_path_query_counterexample :
    determine_apod_file_path "images" "T" "https://x/pic.jpg?v=1.2" = "images/T.2" ∧
    spec_determine_apod_file_path "images" "T" "https://x/pic.jpg?v=1.2" =
      "images/T.jpg" ∧
    determine_apod_file_path "images" "T" "https://x/pic.jpg?v=1.2" ≠
      spec_determine_apod_file_path "images" "T" "https://x/pic.jpg?v=1.2" := by
  refine ⟨by decide, by decide, by decide⟩

/-- Claim C3 (amended): determine_apod_file_path returns the cache directory
joined with the sanitized title followed by an extension, where
sanitization removes exactly the characters backslash, slash, star,
question mark, colon, double quote, less-than, greater-than and pipe
(preserving every other character), and the extension is the splitext
extension of the ENTIRE URL string (query and fragment included),
defaulting to ".jpg" when that extension is empty. -/
theorem determine_apod_file_path_spec (dir t u : String) :
    determine_apod_file_path dir t u =
      dir ++ "/" ++
        String.mk (t.toList.filter (fun c => !(illegal_filename_chars.contains c))) ++
        (if splitext_ext u = "" then ".jpg" else splitext_ext u) := by
  unfold determine_apod_file_path clean_title get_file_extension
  rw [re_sub_remove_eq_filter]

/-- Claim C5: a digest absent from the index (in particular, any digest on
a fresh empty index) looks up as the sentinel 0, and after add_apod_to_db
inserts a record with that digest, get_apod_id_from_db returns exactly the
id that insert assigned. -/
theorem get_apod_id_miss_then_hit (d t e p : String) (db : List ApodRecord)
    (hnone : db.find? (fun r => r.sha256 == d) = none) :
    get_apod_id_from_db d db = 0 ∧
    get_apod_id_from_db d (add_apod_to_db t e p d db).2 =
      (add_apod_to_db t e p d db).1 := by
  constructor
  · unfold get_apod_id_from_db
    rw [hnone]
  · unfold get_apod_id_from_db add_apod_to_db
    rw [find?_append_of_none _ _ _ hnone]
    simp

/-- Claim C5 witness: on the empty index, digest "h" misses with 0, and
after inserting it the lookup returns the assigned id. -/
theorem get_apod_id_miss_then_hit_witness :
    get_apod_id_from_db "h" [] = 0 ∧
    get_apod_id_from_db "h" (add_apod_to_db "t" "e" "p" "h" []).2 =
      (add_apod_to_db "t" "e" "p" "h" []).1 :=
  get_apod_id_miss_then_hit "h" "t" "e" "p" [] rfl

/-- Claim C6: inserting a record with add_apod_to_db and fetching the
returned id with get_apod_info yields exactly the title, explanation and
file_path supplied at insertion. -/
theorem add_then_get_round_trip (t e p d : String) (db : List ApodRecord) :
    get_apod_info (add_apod_to_db t e p d db).1 (add_apod_to_db t e p d db).2 =
      some ⟨t, e, p⟩ := by
  unfold get_apod_info add_apod_to_db
  have hnone : db.find? (fun r => r.id == maxId db + 1) = none := by
    rw [List.find?_eq_none]
    intro x hx
    have := mem_id_le_maxId db x hx
    simp only [beq_iff_eq]
    omega
  rw [find?_append_of_none _ _ _ hnone]
  simp

/-- Claim C10: the id assigned by add_apod_to_db is always at least 1
(SQLite hands out max(rowid)+1 over a table whose rowids are naturals),
so the sentinel 0 of add_apod_to_cache and get_apod_id_from_db never
collides with a stored record id; moreover insertion preserves the
all-ids-positive invariant of the table. -/
theorem add_apod_to_db_assigns_positive_id (t e p d : String)
    (db : List ApodRecord) :
    1 ≤ (add_apod_to_db t e p d db).1 ∧
    (WfDb db → WfDb (add_apod_to_db t e p d db).2) := by
  constructor
  · simp [add_apod_to_db]
  · intro h r hr
    unfold add_apod_to_db at hr
    simp only [List.mem_append, List.mem_singleton] at hr
    rcases hr with hr | hr
    · exact h r hr
    · rw [hr]; simp

/-- Claim C10 witness: inserting into the empty table assigns id 1 and the
resulting table has only positive ids. -/
theorem add_apod_to_db_assigns_positive_id_witness :
    1 ≤ (add_apod_to_db "t" "e" "p" "d" []).1 ∧
    WfDb (add_apod_to_db "t" "e" "p" "d" []).2 :=
  ⟨(add_apod_to_db_assigns_positive_id "t" "e" "p" "d" []).1,
   (add_apod_to_db_assigns_positive_id "t" "e" "p" "d" []).2
     (by intro r hr; cases hr)⟩

/-- Claim C4 counterexample: with two records sharing a title, the SELECT
in get_apod_info_by_title has no ORDER BY and fetchone() yields the FIRST
matching row in rowid order, so the earliest inserted record (id 1) wins,
not the most recently inserted one (id 2). -/
theorem get_apod_info_by_title_duplicate_counterexample :
    (add_apod_to_db "T" "e1" "p1" "h1" []).1 = 1 ∧
    (add_apod_to_db "T" "e2" "p2" "h2" (add_apod_to_db "T" "e1" "p1" "h1" []).2).1 = 2 ∧
    get_apod_info_by_title "T"
      (add_apod_to_db "T" "e2" "p2" "h2" (add_apod_to_db "T" "e1" "p1" "h1" []).2).2 =
      some ⟨"T", "e1", "p1"⟩ ∧
    get_apod_info_by_title "T"
      (add_apod_to_db "T" "e2" "p2" "h2" (add_apod_to_db "T" "e1" "p1" "h1" []).2).2 ≠
      some ⟨"T", "e2", "p2"⟩ := by
  refine ⟨by decide, by decide, by decide, by decide⟩

theorem find?_first_min_id (t : String) (db : List ApodRecord) (r : ApodRecord)
    (hsorted : db.Pairwise (fun a b => a.id < b.id))
    (hr : db.find? (fun x => x.title == t) = some r) :
    ∀ x ∈ db, x.title = t → r.id ≤ x.id := by
  induction db with
  | nil => cases hr
  | cons y ys ih =>
    rw [List.pairwise_cons] at hsorted
    cases hy : y.title == t with
    | true =>
      simp only [List.find?, hy] at hr
      have hyr : y = r := Option.some.inj hr
      subst hyr
      intro x hx _
      rcases List.mem_cons.mp hx with h | h
      · rw [h]
      · exact Nat.le_of_lt (hsorted.1 x h)
    | false =>
      simp only [List.find?, hy] at hr
      intro x hx hxt
      rcases List.mem_cons.mp hx with h | h
      · subst h
        exact absurd hxt (by simpa using hy)
      · exact ih hsorted.2 hr x h hxt

/-- Claim C4 (amended): on an index whose rowids ascend in insertion order
(as SQLite maintains), a title with several matching records is resolved
by get_apod_info_by_title to the EARLIEST inserted matching record: the
first match in rowid order, whose id is minimal among all matches. -/
theorem get_apod_info_by_title_earliest (db : List ApodRecord) (t : String)
    (r : ApodRecord)
    (hsorted : db.Pairwise (fun a b => a.id < b.id))
    (hr : db.find? (fun x => x.title == t) = some r) :
    get_apod_info_by_title t db = some ⟨r.title, r.explanation, r.file_path⟩ ∧
    ∀ x ∈ db, x.title = t → r.id ≤ x.id := by
  refine ⟨?_, find?_first_min_id t db r hsorted hr⟩
  unfold get_apod_info_by_title
  rw [hr]

/-- Claim C4 (amended) witness: on the two-record table the earliest
matching record (id 1) is returned and its id bounds the other match. -/
theorem get_apod_info_by_title_earliest_witness :
    get_apod_info_by_title "T"
      [⟨1, "T", "e1", "p1", "h1"⟩, ⟨2, "T", "e2", "p2", "h2"⟩] =
      some ⟨"T", "e1", "p1"⟩ ∧
    (⟨1, "T", "e1", "p1", "h1"⟩ : ApodRecord).id ≤
      (⟨2, "T", "e2", "p2", "h2"⟩ : ApodRecord).id :=
  ⟨(get_apod_info_by_title_earliest
      [⟨1, "T", "e1", "p1", "h1"⟩, ⟨2, "T", "e2", "p2", "h2"⟩] "T"
      ⟨1, "T", "e1", "p1", "h1"⟩ (by decide) (by decide)).1,
   (get_apod_info_by_title_earliest
      [⟨1, "T", "e1", "p1", "h1"⟩, ⟨2, "T", "e2", "p2", "h2"⟩] "T"
      ⟨1, "T", "e1", "p1", "h1"⟩ (by decide) (by decide)).2
     ⟨2, "T", "e2", "p2", "h2"⟩ (by decide) rfl⟩

/-- Claim C7: a fault-free init_apod_cache always returns normally, is
idempotent under iteration (N calls leave exactly what one call leaves),
leaves the directory and exactly one apod table in place, and preserves
every record already in the index (the table after init is the old table
when one existed, and the fresh empty table otherwise). -/
theorem init_apod_cache_idempotent (n : Nat) (st : CacheState) (hn : 1 ≤ n) :
    Nat.iterate run_init n st = run_init st ∧
    init_apod_cache false false st = Except.ok (run_init st) ∧
    (run_init st).database = some (st.database.getD []) ∧
    (run_init st).dir_exists = true := by
  have hok : ∀ s : CacheState,
      init_apod_cache false false s = Except.ok (run_init s) := by
    intro s
    cases s with
    | mk de db => cases db <;> simp [init_apod_cache, run_init]
  have hfix : ∀ s, run_init (run_init s) = run_init s := by
    intro s
    cases s with
    | mk de db => cases db <;> simp [run_init, init_apod_cache]
  have hiter : ∀ m, Nat.iterate run_init m (run_init st) = run_init st := by
    intro m
    induction m with
    | zero => rfl
    | succ k ih => rw [Function.iterate_succ_apply, hfix, ih]
  obtain ⟨k, rfl⟩ : ∃ k, n = k + 1 := ⟨n - 1, by omega⟩
  refine ⟨?_, hok st, ?_, ?_⟩
  · rw [Function.iterate_succ_apply, hiter]
  · cases st with
    | mk de db => cases db <;> simp [run_init, init_apod_cache]
  · cases st with
    | mk de db => cases db <;> simp [run_init, init_apod_cache]

/-- Claim C7 witness: two fault-free init calls on a state with a missing
directory and a one-record table equal one call, and the record survives. -/
theorem init_apod_cache_idempotent_witness :
    Nat.iterate run_init 2 ⟨false, some [⟨1, "t", "e", "p", "h"⟩]⟩ =
      run_init ⟨false, some [⟨1, "t", "e", "p", "h"⟩]⟩ ∧
    (run_init ⟨false, some [⟨1, "t", "e", "p", "h"⟩]⟩).database =
      some [⟨1, "t", "e", "p", "h"⟩] :=
  ⟨(init_apod_cache_idempotent 2 ⟨false, some [⟨1, "t", "e", "p", "h"⟩]⟩
      (by decide)).1,
   (init_apod_cache_idempotent 2 ⟨false, some [⟨1, "t", "e", "p", "h"⟩]⟩
      (by decide)).2.2.1⟩

/-- Claim C8 counterexample: with the directory present and the database
file absent, a schema-creation failure is caught by the except
sqlite3.Error branch, printed, and init_apod_cache returns NORMALLY (no
StorageInitError reaches the caller, and no table was created). -/
theorem init_apod_cache_schema_failure_counterexample :
    init_apod_cache false true ⟨true, none⟩ = Except.ok ⟨true, none⟩ := rfl

/-- Claim C8 (amended): when the cache directory cannot be created the
underlying OSError propagates uncaught and the operation fails; but when
only the database schema cannot be created, the sqlite3 error is caught
and printed and init_apod_cache returns normally, so schema failure is
not fatal to the calling operation. -/
theorem init_apod_cache_failure_modes (st : CacheState) (sf : Bool)
    (hd : st.dir_exists = false) :
    init_apod_cache true sf st = Except.error "OSError" ∧
    (init_apod_cache false true st).isOk = true := by
  constructor
  · unfold init_apod_cache
    rw [hd]
    simp
  · cases st with
    | mk de db => cases db <;> simp [init_apod_cache, Except.isOk, Except.toBool]

/-- Claim C8 (amended) witness: on a state with no directory and no
database, a failing mkdir is fatal while a failing schema creation is
not. -/
theorem init_apod_cache_failure_modes_witness :
    init_apod_cache true false ⟨false, none⟩ = Except.error "OSError" ∧
    (init_apod_cache false true ⟨false, none⟩).isOk = true :=
  ⟨(init_apod_cache_failure_modes ⟨false, none⟩ false rfl).1,
   (init_apod_cache_failure_modes ⟨false, none⟩ false rfl).2⟩

/-- Claim C9: a string argument to add_apod_to_cache is parsed with
date.fromisoformat; on success the call proceeds exactly as the
corresponding date-argument call, and on failure it raises
ValueError("Invalid date format") instead of returning the sentinel 0.
The sample evaluations show the parser accepting a leap day and rejecting
a bad month and a non-date string. -/
theorem add_apod_to_cache_string_date (env : ApodEnv) (dir s : String)
    (st : FsDb) :
    (add_apod_to_cache env dir (DateArg.asStr s) st =
      match fromisoformat s with
      | some d => add_apod_to_cache env dir (DateArg.asDate d) st
      | none => Except.error "Invalid date format") ∧
    fromisoformat "2024-02-29" = some ⟨2024, 2, 29⟩ ∧
    fromisoformat "2024-13-01" = none ∧
    fromisoformat "not-a-date" = none := by
  refine ⟨?_, by decide, by decide, by decide⟩
  cases h : fromisoformat s with
  | none => simp [add_apod_to_cache, h]
  | some d => simp [add_apod_to_cache, h]

/-- Claim C2: whenever a step of add_apod_to_cache fails - the metadata
fetch yields nothing, the image-URL extraction yields nothing or an empty
URL, the download yields nothing or empty bytes, or (the run having
reached the write, i.e. on a cache miss) the file write fails - the call
returns the sentinel id 0 and leaves the whole state unchanged, index
included: a failed file write aborts before any index mutation and no
partially-populated record is ever inserted. -/
theorem add_apod_to_cache_failure_returns_zero (env : ApodEnv)
    (dir : String) (d : PyDate) (st : FsDb)
    (hfail :
      env.api_get_apod_info d.isoformat = none ∨
      (∃ info, env.api_get_apod_info d.isoformat = some info ∧
        (env.api_get_apod_image_url info = none ∨
         env.api_get_apod_image_url info = some "")) ∨
      (∃ info u, env.api_get_apod_info d.isoformat = some info ∧
        env.api_get_apod_image_url info = some u ∧ u ≠ "" ∧
        (env.http_download u = none ∨ env.http_download u = some [])) ∨
      (∃ info u B, env.api_get_apod_info d.isoformat = some info ∧
        env.api_get_apod_image_url info = some u ∧ u ≠ "" ∧
        env.http_download u = some B ∧ B ≠ [] ∧
        get_apod_id_from_db (env.sha256_hexdigest B) st.db = 0 ∧
        env.write_succeeds (determine_apod_file_path dir info.title u) = false)) :
    add_apod_to_cache env dir (DateArg.asDate d) st = Except.ok (0, st) := by
  rcases hfail with h | ⟨info, hi, h | h⟩ | ⟨info, u, hi, hu, hne, h | h⟩ |
    ⟨info, u, B, hi, hu, hne, hd, hB, hmiss, hw⟩
  · simp [add_apod_to_cache, apod_pipeline, h]
  · simp [add_apod_to_cache, apod_pipeline, hi, h]
  · simp [add_apod_to_cache, apod_pipeline, hi, h]
  · simp [add_apod_to_cache, apod_pipeline, hi, hu, hne, h]
  · simp [add_apod_to_cache, apod_pipeline, hi, hu, hne, h]
  · simp [add_apod_to_cache, apod_pipeline, hi, hu, hne, hd, hB, hmiss, hw,
      save_image_file]

/-- Claim C2 witness: on an environment whose metadata fetch fails, the
call returns id 0 and the empty state untouched. -/
theorem add_apod_to_cache_failure_returns_zero_witness :
    add_apod_to_cache env_fail "images" (DateArg.asDate ⟨2024, 1, 1⟩) ⟨[], []⟩ =
      Except.ok (0, ⟨[], []⟩) :=
  add_apod_to_cache_failure_returns_zero env_fail "images" ⟨2024, 1, 1⟩ ⟨[], []⟩
    (Or.inl rfl)

/-- Claim C1: on a well-formed index, if two date identifiers both resolve
(through fetch, URL extraction and download) to the same byte sequence B
and the file write succeeds, then running add_apod_to_cache with the
first and then the second identifier returns the same record id both
times, the first result id is nonzero, and the second run returns the
state of the first run COMPLETELY unchanged - no file write and no new
index row - so at most one file and one index row exist for B. -/
theorem add_apod_to_cache_dedup (env : ApodEnv) (dir : String)
    (d1 d2 : PyDate) (st0 : FsDb) (info1 info2 : ApodInfo) (u1 u2 : String)
    (B : List Nat)
    (hwf : WfDb st0.db)
    (h1i : env.api_get_apod_info d1.isoformat = some info1)
    (h1u : env.api_get_apod_image_url info1 = some u1)
    (h1ne : u1 ≠ "")
    (h1d : env.http_download u1 = some B)
    (h2i : env.api_get_apod_info d2.isoformat = some info2)
    (h2u : env.api_get_apod_image_url info2 = some u2)
    (h2ne : u2 ≠ "")
    (h2d : env.http_download u2 = some B)
    (hB : B ≠ [])
    (hw : env.write_succeeds (determine_apod_file_path dir info1.title u1) = true) :
    apod_pipeline env dir d2.isoformat
        (apod_pipeline env dir d1.isoformat st0).2 =
      apod_pipeline env dir d1.isoformat st0 ∧
    (apod_pipeline env dir d1.isoformat st0).1 ≠ 0 ∧
    add_apod_to_cache env dir (DateArg.asDate d1) st0 =
      Except.ok (apod_pipeline env dir d1.isoformat st0) ∧
    add_apod_to_cache env dir (DateArg.asDate d2)
        (apod_pipeline env dir d1.isoformat st0).2 =
      Except.ok (apod_pipeline env dir d2.isoformat
        (apod_pipeline env dir d1.isoformat st0).2) := by
  by_cases hhit : get_apod_id_from_db (env.sha256_hexdigest B) st0.db = 0
  · -- cache miss on the first run: the file is written and a row inserted,
    -- and the second run short-circuits on the freshly inserted digest.
    have hfind : st0.db.find? (fun r => r.sha256 == env.sha256_hexdigest B) = none :=
      lookup_zero_no_match st0.db (env.sha256_hexdigest B) hwf hhit
    have hp1 : apod_pipeline env dir d1.isoformat st0 =
        (maxId st0.db + 1,
         ⟨st0.db ++ [⟨maxId st0.db + 1, info1.title, info1.explanation,
            determine_apod_file_path dir info1.title u1, env.sha256_hexdigest B⟩],
          st0.files ++ [(determine_apod_file_path dir info1.title u1, B)]⟩) := by
      simp [apod_pipeline, h1i, h1u, h1ne, h1d, hB, hhit, save_image_file, hw,
        add_apod_to_db]
    have hlook : get_apod_id_from_db (env.sha256_hexdigest B)
        (st0.db ++ [⟨maxId st0.db + 1, info1.title, info1.explanation,
          determine_apod_file_path dir info1.title u1,
          env.sha256_hexdigest B⟩]) = maxId st0.db + 1 := by
      unfold get_apod_id_from_db
      rw [find?_append_of_none _ _ _ hfind]
      simp
    have hp2 : apod_pipeline env dir d2.isoformat
        (apod_pipeline env dir d1.isoformat st0).2 =
        apod_pipeline env dir d1.isoformat st0 := by
      rw [hp1]
      simp [apod_pipeline, h2i, h2u, h2ne, h2d, hB, hlook]
    refine ⟨hp2, ?_, rfl, rfl⟩
    rw [hp1]
    simp
  · -- cache hit on the first run: both runs return the existing id and
    -- leave the state untouched.
    have hp1 : apod_pipeline env dir d1.isoformat st0 =
        (get_apod_id_from_db (env.sha256_hexdigest B) st0.db, st0) := by
      simp [apod_pipeline, h1i, h1u, h1ne, h1d, hB, hhit]
    have hp2 : apod_pipeline env dir d2.isoformat st0 =
        (get_apod_id_from_db (env.sha256_hexdigest B) st0.db, st0) := by
      simp [apod_pipeline, h2i, h2u, h2ne, h2d, hB, hhit]
    refine ⟨?_, ?_, rfl, rfl⟩
    · rw [hp1]
      exact hp2
    · rw [hp1]
      exact hhit

/-- Claim C1 witness: two different dates resolving to the same bytes on a
fresh state give the same id twice, and the second call changes nothing. -/
theorem add_apod_to_cache_dedup_witness :
    apod_pipeline env_dedup "images" (⟨2024, 1, 2⟩ : PyDate).isoformat
        (apod_pipeline env_dedup "images" (⟨2024, 1, 1⟩ : PyDate).isoformat
          ⟨[], []⟩).2 =
      apod_pipeline env_dedup "images" (⟨2024, 1, 1⟩ : PyDate).isoformat
        ⟨[], []⟩ ∧
    (apod_pipeline env_dedup "images" (⟨2024, 1, 1⟩ : PyDate).isoformat
        ⟨[], []⟩).1 ≠ 0 :=
  ⟨(add_apod_to_cache_dedup env_dedup "images" ⟨2024, 1, 1⟩ ⟨2024, 1, 2⟩
      ⟨[], []⟩ ⟨"A", "ea"⟩ ⟨"B", "eb"⟩ "https://x/A.jpg" "https://x/B.jpg"
      [1, 2, 3] (by intro r hr; cases hr) rfl rfl (by decide) rfl rfl rfl
      (by decide) rfl (by decide) rfl).1,
   (add_apod_to_cache_dedup env_dedup "images" ⟨2024, 1, 1⟩ ⟨2024, 1, 2⟩
      ⟨[], []⟩ ⟨"A", "ea"⟩ ⟨"B", "eb"⟩ "https://x/A.jpg" "https://x/B.jpg"
      [1, 2, 3] (by intro r hr; cases hr) rfl rfl (by decide) rfl rfl rfl
      (by decide) rfl (by decide) rfl).2.1⟩
